import Mathlib

/-!
Verification of the HR bot core (`main_resilient.py`): interaction router,
notification fan-out, moderation gate and paginated vacancy catalog.

The Python source is shallowly embedded: SQLAlchemy rows become structures,
the database session becomes an explicit `DB` value, Telegram/Twilio/SMTP
side effects become an explicit `Effect` trace, and an exception escaping a
handler becomes `some e : Option PyError` in the handler result.
-/

namespace HRBot

/-! ## Python string primitives

The source parses tokens with `str.split`, `str.split(sep, 1)`, `str.strip`
and `int(...)`.  These are modelled by structural recursion over the
character list so that every concrete evaluation reduces in the kernel. -/

/-- Models Python `str.split(sep)` (single-character separator, no maxsplit):
splits at every occurrence of `sep`, keeping empty segments. -/
def splitChar (sep : Char) : List Char → List (List Char)
  | [] => [[]]
  | c :: cs =>
    let r := splitChar sep cs
    if c == sep then [] :: r
    else
      match r with
      | [] => [[c]]
      | g :: gs => (c :: g) :: gs

/-- Models Python `s.split(sep)` for a one-character separator. -/
def pySplit (s : String) (sep : Char) : List String :=
  (splitChar sep s.data).map (fun l => ⟨l⟩)

/-- Helper for `pySplitOnce`: text before the first `sep`, and the rest. -/
def splitOnceChar (sep : Char) : List Char → List Char × Option (List Char)
  | [] => ([], none)
  | c :: cs =>
    if c == sep then ([], some cs)
    else
      let r := splitOnceChar sep cs
      (c :: r.1, r.2)

/-- Models Python `s.split(sep, 1)` (maxsplit = 1): at most two segments. -/
def pySplitOnce (s : String) (sep : Char) : List String :=
  match splitOnceChar sep s.data with
  | (h, none) => [⟨h⟩]
  | (h, some t) => [⟨h⟩, ⟨t⟩]

/-- Models Python `s.strip()` (ASCII whitespace; the inputs handled here are
chat commands and tokens, which carry no exotic Unicode whitespace). -/
def pyStrip (s : String) : String :=
  ⟨((s.data.dropWhile Char.isWhitespace).reverse.dropWhile Char.isWhitespace).reverse⟩

/-- Digit-sequence value, `none` if empty or not all decimal digits. -/
def pyDigits? (l : List Char) : Option Nat :=
  if l.isEmpty then none
  else if l.all Char.isDigit then
    some (l.foldl (fun a c => a * 10 + (c.toNat - 48)) 0)
  else none

/-- Models CPython `int(s)` on the token strings of this program: optional
surrounding whitespace, optional sign, then one or more decimal digits.
(Digit-group underscores never occur here: every parsed segment is the
result of splitting on the underscore.)  `none` models `ValueError`. -/
def pyInt? (s : String) : Option Int :=
  match (pyStrip s).data with
  | '-' :: rest => (pyDigits? rest).map (fun n => -(n : Int))
  | '+' :: rest => (pyDigits? rest).map (fun n => (n : Int))
  | l => (pyDigits? l).map (fun n => (n : Int))

/-- Models Python `s.startswith(p)`. -/
def pyStartsWith (s p : String) : Bool := p.data.isPrefixOf s.data

/-- Python truthiness of an `os.getenv` result: unset (`None`) and the empty
string are falsy. -/
def truthy : Option String → Bool
  | none => false
  | some s => !(s == "")

/-- Python `str(bool)` as used in the toggle reply f-string. -/
def pyBool (b : Bool) : String := if b then "True" else "False"

/-! ## Data model (SQLAlchemy tables, source lines 43-57) -/

/-- Table `vacancies`: integer primary key plus three string columns. -/
structure Vacancy where
  id : Int
  title : String
  description : String
  city : String
deriving Repr, DecidableEq

/-- Table `toggles`: `name` is the primary key. -/
structure Toggle where
  name : String
  enabled : Bool
deriving Repr, DecidableEq

/-- The whole database: `blacklist` holds the `user_id` primary keys. -/
structure DB where
  vacancies : List Vacancy
  toggles : List Toggle
  blacklist : List Int
deriving Repr, DecidableEq

/-- SQLite `INTEGER PRIMARY KEY` assignment for a fresh row: one more than
the largest id in the table (1 on an empty table). -/
def nextId (db : DB) : Int :=
  (db.vacancies.foldl (fun m v => max m v.id) 0) + 1

/-- Process configuration read from the environment at startup. -/
structure Config where
  adminId : Int
  twilioSid : Option String
  twilioToken : Option String
  smtpHost : Option String
  smtpUser : Option String
  smtpPass : Option String
  adminPhone : String
  adminEmail : String
deriving Repr, DecidableEq

/-- Which external sink calls raise when attempted (provider outage,
timeout, bad destination, ...). -/
structure SinkEnv where
  chatFails : Bool
  smsFails : Bool
  emailFails : Bool
deriving Repr, DecidableEq

/-! ## Observable effects and escaping exceptions -/

/-- One observable side effect of a handler, in execution order.  A markup
is a list of button rows, each button a `(label, callback_data)` pair. -/
inductive Effect where
  | ack : Effect
  | ackAlert (text : String) : Effect
  | chatAttempt (chatId : Int) (text : String) : Effect
  | smsAttempt (toNumber body : String) : Effect
  | emailAttempt (toEmail subject body : String) : Effect
  | logError (context : String) : Effect
  | logWarning (context : String) : Effect
  | editText (text : String) (markup : List (List (String × String))) : Effect
  | answerText (text : String) (markup : List (List (String × String))) : Effect
  | reply (text : String) : Effect
deriving Repr, DecidableEq

/-- The Python exception kinds that can escape a handler here. -/
inductive PyError where
  | valueError
  | indexError
  | attributeError
  | integrityError
  | sendError
deriving Repr, DecidableEq

/-- Result of running one handler: the database afterwards, the effect
trace (truncated at the point an exception was raised), and `some e` when
an exception escaped the handler to the dispatcher. -/
structure HRes where
  db : DB
  effects : List Effect
  err : Option PyError
deriving Repr, DecidableEq

def isChatAttempt : Effect → Bool
  | .chatAttempt _ _ => true
  | _ => false

def isSmsAttempt : Effect → Bool
  | .smsAttempt _ _ => true
  | _ => false

def isEmailAttempt : Effect → Bool
  | .emailAttempt _ _ _ => true
  | _ => false

def isEditText : Effect → Bool
  | .editText _ _ => true
  | _ => false

/-- Any of the three notification channel attempts. -/
def isSend (e : Effect) : Bool :=
  isChatAttempt e || isSmsAttempt e || isEmailAttempt e

/-! ## Notification sinks (source lines 62-90)

`send_sms` and `send_email` wrap the provider call in `try/except`, so a
provider failure is logged and never escapes them.  The `fails` flag models
whether the wrapped provider call raises. -/

/-- `send_sms`: skipped silently unless both Twilio credentials are truthy;
a provider failure is caught and logged inside the function. -/
def send_sms (cfg : Config) (fails : Bool) (toNumber body : String) : List Effect :=
  if truthy cfg.twilioSid && truthy cfg.twilioToken then
    if fails then [.smsAttempt toNumber body, .logError "sms"]
    else [.smsAttempt toNumber body]
  else []

/-- `send_email`: skipped with a logged warning unless SMTP host, user and
password are all truthy; a send failure is caught and logged. -/
def send_email (cfg : Config) (fails : Bool) (toEmail subject body : String) :
    List Effect :=
  if !(truthy cfg.smtpHost && truthy cfg.smtpUser && truthy cfg.smtpPass) then
    [.logWarning "smtp not configured"]
  else if fails then [.emailAttempt toEmail subject body, .logError "email"]
  else [.emailAttempt toEmail subject body]

/-! ## Keyboards (source lines 93-142) -/

/-- `build_main_menu`. -/
def build_main_menu : List (List (String × String)) :=
  [[("Центр Карьеры", "evt_career"), ("Практика", "evt_practice")],
   [("Вакансии", "all_vacancies"), ("Откликнуться", "noop")]]

/-- `build_event_menu`. -/
def build_event_menu (key description : String) :
    String × List (List (String × String)) :=
  (description,
   [[("Откликнуться", "respond_evt_" ++ key), ("Главное меню", "main")]])

/-- `build_vacancy_list`: one page of the catalog.  The query is
`offset(page * per_page).limit(per_page)`; SQLite treats a negative
`OFFSET` as zero, which `Int.toNat` reproduces.  `builder.adjust(1)` puts
each vacancy button on its own row; the navigation buttons share one row;
the main-menu button closes the markup. -/
def build_vacancy_list (vacancies : List Vacancy) (page : Int) :
    String × List (List (String × String)) :=
  let per_page : Int := 5
  let total : Int := vacancies.length
  let vacs := (vacancies.drop (page * per_page).toNat).take per_page.toNat
  let vacRows := vacs.map (fun v => [(v.title, "vac_" ++ toString v.id)])
  let navRow :=
    (if page > 0 then [("Назад", "vac_page_" ++ toString (page - 1))] else []) ++
    (if (page + 1) * per_page < total then
      [("Далее", "vac_page_" ++ toString (page + 1))] else [])
  let rows := vacRows ++ (if navRow.isEmpty then [] else [navRow]) ++
    [[("Главное меню", "main")]]
  ("Список вакансий:", rows)

/-- `build_vacancy_detail` on an actual row.  (The source also reaches this
call with `vac = None` after a failed lookup; that path raises
`AttributeError` at `vac.title` and is modelled at the call site in
`vac_detail`.) -/
def build_vacancy_detail (v : Vacancy) : String × List (List (String × String)) :=
  (v.title ++ "\n" ++ v.description ++ "\nГород: " ++ v.city,
   [[("Откликнуться", "respond_vac_" ++ toString v.id), ("Главное меню", "main")]])

/-! ## Handlers (source lines 145-248) -/

/-- `cmd_start`: a blacklisted caller gets no output at all. -/
def cmd_start (db : DB) (userId : Int) : List Effect :=
  if db.blacklist.contains userId then []
  else [.answerText "Добро пожаловать! Выберите опцию:" build_main_menu]

/-- The key computed at the top of `evt_handler`. -/
def evtKey (data : String) : String :=
  if data == "evt_career" then "career" else "practice"

/-- `evt_handler`: `if not tog or not tog.enabled` shows the transient
alert, so a missing Toggle row behaves as disabled. -/
def evt_handler (db : DB) (data : String) : List Effect :=
  let key := evtKey data
  match db.toggles.find? (fun t => t.name == key) with
  | none => [.ackAlert "Временно недоступно"]
  | some tog =>
    if !tog.enabled then [.ackAlert "Временно недоступно"]
    else
      let description :=
        "Описание для " ++ (if key == "career" then "Центр Карьеры" else "Практика")
      let (text, markup) := build_event_menu key description
      [.editText text markup]

/-- The effective availability of an event section, as consulted by
`evt_handler`: a row must exist and be enabled (absence means disabled). -/
def effectiveEnabled (db : DB) (name : String) : Bool :=
  match db.toggles.find? (fun t => t.name == name) with
  | none => false
  | some tog => tog.enabled

/-- `list_vacancies` (token `all_vacancies`): page 0. -/
def list_vacancies (db : DB) : HRes :=
  let (text, markup) := build_vacancy_list db.vacancies 0
  ⟨db, [.editText text markup], none⟩

/-- `vac_page_handler`: `page = int(callback.data.split('_')[-1])`, then
render that page.  A non-numeric final segment raises `ValueError` before
anything is rendered. -/
def vac_page_handler (db : DB) (data : String) : HRes :=
  match (pySplit data '_').getLast? with
  | none => ⟨db, [], some .indexError⟩
  | some lastTok =>
    match pyInt? lastTok with
    | none => ⟨db, [], some .valueError⟩
    | some page =>
      let (text, markup) := build_vacancy_list db.vacancies page
      ⟨db, [.editText text markup], none⟩

/-- `vac_detail`: `vid = int(callback.data.split('_')[1])`, then
`db.get(Vacancy, vid)`; a missing row makes `build_vacancy_detail(None)`
raise `AttributeError` at `vac.title`, so no screen is rendered. -/
def vac_detail (db : DB) (data : String) : HRes :=
  match pySplit data '_' with
  | _ :: vidStr :: _ =>
    match pyInt? vidStr with
    | none => ⟨db, [], some .valueError⟩
    | some vid =>
      match db.vacancies.find? (fun v => v.id == vid) with
      | none => ⟨db, [], some .attributeError⟩
      | some v =>
        let (text, markup) := build_vacancy_detail v
        ⟨db, [.editText text markup], none⟩
  | _ => ⟨db, [], some .indexError⟩

/-- The notification body built in `respond_handler`. -/
def respondNotif (username title fullName : String) : String :=
  "Новый отклик:\nusername: @" ++ username ++ "\nВакансия: " ++ title ++
    "\nИмя: " ++ fullName

/-- The title resolution on source line 186:
`title = key if mode == 'evt' else db.get(Vacancy, int(key)).title`.
An event submission takes the key itself; any other mode parses the key
(`ValueError` when non-numeric) and looks the vacancy up (`AttributeError`
from `None.title` when no row matches). -/
def resolveTitle (db : DB) (mode key : String) : Except PyError String :=
  if mode == "evt" then .ok key
  else
    match pyInt? key with
    | none => .error .valueError
    | some k =>
      match db.vacancies.find? (fun v => v.id == k) with
      | none => .error .attributeError
      | some v => .ok v.title

/-- `respond_handler`, in source order: acknowledge the callback, unpack
`parts[1], parts[2]` (`IndexError` on fewer than three segments), silently
return for a blacklisted caller, resolve the title (`ValueError` on a
non-numeric key, `AttributeError` on a missing vacancy), then
`bot.send_message` (unguarded: a chat failure escapes), `send_sms`,
`send_email`, and finally the confirmation screen. -/
def respond_handler (cfg : Config) (env : SinkEnv) (db : DB)
    (userId : Int) (username fullName : String) (data : String) : HRes :=
  let ackT : List Effect := [.ack]
  match pySplit data '_' with
  | _ :: mode :: key :: _ =>
    if db.blacklist.contains userId then ⟨db, ackT, none⟩
    else
      match resolveTitle db mode key with
      | .error e => ⟨db, ackT, some e⟩
      | .ok title =>
        let notif := respondNotif username title fullName
        if env.chatFails then
          ⟨db, ackT ++ [.chatAttempt cfg.adminId notif], some .sendError⟩
        else
          let t := ackT ++ [.chatAttempt cfg.adminId notif] ++
            send_sms cfg env.smsFails cfg.adminPhone notif ++
            send_email cfg env.emailFails cfg.adminEmail "Новый отклик" notif
          ⟨db, t ++ [.editText "Спасибо! Ваш отклик отправлен."
            [[("Главное меню", "main")]]], none⟩
  | _ => ⟨db, ackT, some .indexError⟩

/-- `to_main`. -/
def to_main (db : DB) : HRes :=
  ⟨db, [.editText "Главное меню:" build_main_menu], none⟩

/-- `noop_handler`. -/
def noop_handler (db : DB) : HRes :=
  ⟨db, [.ackAlert
    "Пожалуйста, сначала выберите вакансию или ивент, а потом нажмите «Откликнуться»."],
    none⟩

/-! ## Admin handlers (source lines 214-248)

Each wraps its whole body in `try/except`, replying with a usage line on
any exception, so nothing escapes them. -/

/-- `cmd_addvac`: split off the command word, split the argument on `|`,
strip each field, insert.  No emptiness check is performed. -/
def cmd_addvac (db : DB) (text : String) : DB × List Effect :=
  let attempt : Except PyError (DB × List Effect) :=
    match pySplitOnce text ' ' with
    | [_, data] =>
      match (pySplit data '|').map pyStrip with
      | [title, desc, city] =>
        .ok ({ db with
                vacancies := db.vacancies ++ [⟨nextId db, title, desc, city⟩] },
             [.reply "Вакансия добавлена."])
      | _ => .error .valueError
    | _ => .error .valueError
  match attempt with
  | .ok r => r
  | .error _ => (db, [.reply "Использование: /addvac Название|Описание|Город"])

/-- `cmd_toggle`: `db.get(Toggle, name)`; a missing row is created with
`enabled = False` and then — like an existing row — flipped in place, so a
first toggle of an unseen name commits `enabled = True`. -/
def cmd_toggle (db : DB) (text : String) : DB × List Effect :=
  match pySplitOnce text ' ' with
  | [_, name] =>
    match db.toggles.find? (fun t => t.name == name) with
    | none =>
      let tog : Toggle := ⟨name, false⟩
      let tog2 : Toggle := { tog with enabled := !tog.enabled }
      ({ db with toggles := db.toggles ++ [tog2] },
       [.reply (name ++ " = " ++ pyBool tog2.enabled)])
    | some tog =>
      let tog2 : Toggle := { tog with enabled := !tog.enabled }
      ({ db with
          toggles := db.toggles.map (fun t => if t.name == name then tog2 else t) },
       [.reply (name ++ " = " ++ pyBool tog2.enabled)])
  | _ => (db, [.reply "Использование: /toggle career или practice"])

/-- `cmd_blacklist`: `db.add(Blacklist(user_id=uid)); db.commit()` — a
duplicate primary key makes the commit raise `IntegrityError`, which the
bare `except` turns into the usage reply (the session is rolled back, so
the store is unchanged). -/
def cmd_blacklist (db : DB) (text : String) : DB × List Effect :=
  let attempt : Except PyError (DB × List Effect) :=
    match pySplitOnce text ' ' with
    | [_, uidStr] =>
      match pyInt? uidStr with
      | none => .error .valueError
      | some uid =>
        if db.blacklist.contains uid then .error .integrityError
        else
          .ok ({ db with blacklist := db.blacklist ++ [uid] },
               [.reply ("Пользователь " ++ toString uid ++ " в чёрном списке")])
    | _ => .error .valueError
  match attempt with
  | .ok r => r
  | .error _ => (db, [.reply "Использование: /blacklist USER_ID"])

/-! ## Callback routing (source lines 251-258)

The aiogram dispatcher tries the registered filters in registration order
and invokes the first handler whose filter accepts the token. -/

/-- One tag per registered callback handler. -/
inductive HandlerTag where
  | evt
  | listVacancies
  | vacPage
  | vacDetail
  | respond
  | toMain
  | noop
deriving Repr, DecidableEq

/-- The callback routing table, filters in registration order. -/
def callbackRoute (data : String) : Option HandlerTag :=
  if data == "evt_career" || data == "evt_practice" then some .evt
  else if data == "all_vacancies" then some .listVacancies
  else if pyStartsWith data "vac_page_" then some .vacPage
  else if pyStartsWith data "vac_" && !pyStartsWith data "vac_page_" then
    some .vacDetail
  else if pyStartsWith data "respond_" then some .respond
  else if data == "main" then some .toMain
  else if data == "noop" then some .noop
  else none

/-! ## Observers for the rendered catalog page -/

/-- A navigation button: its callback token routes to the page handler. -/
def isNavButton (b : String × String) : Bool := pyStartsWith b.2 "vac_page_"

/-- A navigation button carrying the given label. -/
def navPred (label : String) (b : String × String) : Bool :=
  isNavButton b && b.1 == label

/-- Some row of the rendered markup offers a navigation control with the
given label. -/
def hasNavControl (label : String) (rows : List (List (String × String))) : Bool :=
  rows.any (fun r => r.any (navPred label))

/-- The rendered markup offers a "previous" control. -/
def hasPrevControl (rows : List (List (String × String))) : Bool :=
  hasNavControl "Назад" rows

/-- The rendered markup offers a "next" control. -/
def hasNextControl (rows : List (List (String × String))) : Bool :=
  hasNavControl "Далее" rows

/-! ## Helper lemmas -/

theorem isPrefixOf_append_self (l t : List Char) : l.isPrefixOf (l ++ t) = true := by
  induction l with
  | nil => simp
  | cons a l ih => simp [List.isPrefixOf, ih]

theorem isPrefixOf_append_left (a b c : List Char) :
    (a ++ b).isPrefixOf (a ++ c) = b.isPrefixOf c := by
  induction a with
  | nil => rfl
  | cons x a ih => simp [List.isPrefixOf, ih]

theorem digitChar_isDigit (m : Nat) (h : m < 10) :
    (Nat.digitChar m).isDigit = true := by
  interval_cases m <;> decide

theorem toDigitsCore_all_digits (fuel : Nat) :
    ∀ (n : Nat) (ds : List Char), (∀ c ∈ ds, c.isDigit = true) →
      ∀ c ∈ Nat.toDigitsCore 10 fuel n ds, c.isDigit = true := by
  induction fuel with
  | zero => intro n ds hds c hc; exact hds c hc
  | succ fuel ih =>
    intro n ds hds c hc
    have hstep : Nat.toDigitsCore 10 (fuel + 1) n ds =
        if n / 10 = 0 then Nat.digitChar (n % 10) :: ds
        else Nat.toDigitsCore 10 fuel (n / 10) (Nat.digitChar (n % 10) :: ds) := rfl
    rw [hstep] at hc
    have hdig : ∀ x ∈ Nat.digitChar (n % 10) :: ds, x.isDigit = true := by
      intro x hx
      rcases List.mem_cons.mp hx with rfl | hx
      · exact digitChar_isDigit _ (Nat.mod_lt _ (by decide))
      · exact hds x hx
    by_cases hz : n / 10 = 0
    · rw [if_pos hz] at hc
      exact hdig c hc
    · rw [if_neg hz] at hc
      exact ih (n / 10) _ hdig c hc

theorem toDigitsCore_ne_nil (fuel : Nat) :
    ∀ (n : Nat) (ds : List Char), Nat.toDigitsCore 10 (fuel + 1) n ds ≠ [] := by
  induction fuel with
  | zero =>
    intro n ds
    have hstep : Nat.toDigitsCore 10 1 n ds =
        if n / 10 = 0 then Nat.digitChar (n % 10) :: ds
        else Nat.toDigitsCore 10 0 (n / 10) (Nat.digitChar (n % 10) :: ds) := rfl
    rw [hstep]
    by_cases hz : n / 10 = 0
    · rw [if_pos hz]; exact List.cons_ne_nil _ _
    · rw [if_neg hz]; exact List.cons_ne_nil _ _
  | succ fuel ih =>
    intro n ds
    have hstep : Nat.toDigitsCore 10 (fuel + 1 + 1) n ds =
        if n / 10 = 0 then Nat.digitChar (n % 10) :: ds
        else Nat.toDigitsCore 10 (fuel + 1) (n / 10) (Nat.digitChar (n % 10) :: ds) := rfl
    rw [hstep]
    by_cases hz : n / 10 = 0
    · rw [if_pos hz]; exact List.cons_ne_nil _ _
    · rw [if_neg hz]; exact ih (n / 10) _

theorem natRepr_head_digit (n : Nat) :
    ∃ d ds, (Nat.repr n).data = d :: ds ∧ d.isDigit = true := by
  have hne : Nat.toDigits 10 n ≠ [] := toDigitsCore_ne_nil n n []
  have hall : ∀ c ∈ Nat.toDigits 10 n, c.isDigit = true :=
    toDigitsCore_all_digits (n + 1) n [] (by intro c hc; cases hc)
  rcases hlist : Nat.toDigits 10 n with _ | ⟨d, ds⟩
  · exact absurd hlist hne
  · refine ⟨d, ds, ?_, ?_⟩
    · show (Nat.toDigits 10 n).asString.data = d :: ds
      rw [hlist]; rfl
    · exact hall d (by rw [hlist]; exact List.mem_cons_self _ _)

theorem page_not_prefix_of_int (i : Int) :
    ("page_" : String).data.isPrefixOf (toString i).data = false := by
  cases i with
  | ofNat m =>
    rcases natRepr_head_digit m with ⟨d, ds, hdata, hdig⟩
    show ("page_" : String).data.isPrefixOf (Nat.repr m).data = false
    rw [hdata]
    have hne : ('p' == d) = false := by
      rcases Bool.eq_false_or_eq_true ('p' == d) with ht | hf
      · have hpd : 'p' = d := eq_of_beq ht
        rw [← hpd] at hdig
        exact absurd hdig (by decide)
      · exact hf
    simp [List.isPrefixOf, hne]
  | negSucc m =>
    show ("page_" : String).data.isPrefixOf ("-" ++ Nat.repr (m + 1)).data = false
    rw [String.data_append]
    simp [List.isPrefixOf]

theorem vacButton_not_nav (i : Int) :
    pyStartsWith ("vac_" ++ toString i) "vac_page_" = false := by
  show ("vac_page_" : String).data.isPrefixOf ("vac_" ++ toString i).data = false
  rw [String.data_append]
  have hsplit : ("vac_page_" : String).data =
      ("vac_" : String).data ++ ("page_" : String).data := by decide
  rw [hsplit, isPrefixOf_append_left]
  exact page_not_prefix_of_int i

theorem pyStartsWith_append (p s : String) : pyStartsWith (p ++ s) p = true := by
  show p.data.isPrefixOf (p ++ s).data = true
  rw [String.data_append]
  exact isPrefixOf_append_self _ _

theorem vacPageToken_startsWith_vac (s : String) :
    pyStartsWith ("vac_page_" ++ s) "vac_" = true := by
  show ("vac_" : String).data.isPrefixOf ("vac_page_" ++ s).data = true
  rw [String.data_append]
  have hsplit : ("vac_page_" : String).data =
      ("vac_" : String).data ++ ("page_" : String).data := by decide
  rw [hsplit, List.append_assoc]
  exact isPrefixOf_append_self _ _

theorem beq_eq_false_of_startsWith {t u p : String}
    (h : pyStartsWith t p = true) (hu : pyStartsWith u p = false) :
    (t == u) = false := by
  rcases Bool.eq_false_or_eq_true (t == u) with ht | hf
  · have htu : t = u := eq_of_beq ht
    rw [htu, hu] at h
    exact absurd h (by decide)
  · exact hf

theorem find_none_append {α : Type} (p : α → Bool) {l : List α} (l' : List α)
    (h : l.find? p = none) : (l ++ l').find? p = l'.find? p := by
  induction l with
  | nil => rfl
  | cons a l ih =>
    have hmem := List.find?_eq_none.mp h
    have hpa : p a = false :=
      Bool.eq_false_iff.mpr (hmem a (List.mem_cons_self a l))
    have hl : l.find? p = none :=
      List.find?_eq_none.mpr (fun x hx => hmem x (List.mem_cons_of_mem a hx))
    rw [List.cons_append, List.find?_cons_of_neg _ (by simp [hpa])]
    exact ih hl

theorem map_update_of_find_none {α : Type} (p : α → Bool) (c : α) {l : List α}
    (h : l.find? p = none) : l.map (fun t => if p t then c else t) = l := by
  induction l with
  | nil => rfl
  | cons a l ih =>
    have hmem := List.find?_eq_none.mp h
    have hpa : p a = false :=
      Bool.eq_false_iff.mpr (hmem a (List.mem_cons_self a l))
    have hl : l.find? p = none :=
      List.find?_eq_none.mpr (fun x hx => hmem x (List.mem_cons_of_mem a hx))
    rw [List.map_cons, if_neg (show ¬p a = true by simp [hpa]), ih hl]

theorem find_map_update {α : Type} (p : α → Bool) (c : α) {l : List α} {a : α}
    (h : l.find? p = some a) (hc : p c = true) :
    (l.map (fun t => if p t then c else t)).find? p = some c := by
  induction l with
  | nil => cases h
  | cons x l ih =>
    by_cases hx : p x = true
    · simp only [List.map_cons, if_pos hx]
      exact List.find?_cons_of_pos _ hc
    · have hxf : p x = false := Bool.eq_false_iff.mpr hx
      rw [List.find?_cons_of_neg _ hx] at h
      simp only [List.map_cons, if_neg hx]
      rw [List.find?_cons_of_neg _ hx]
      exact ih h

theorem main_button_not_nav : isNavButton ("Главное меню", "main") = false := by
  decide

theorem nav_button_isNav (label s : String) :
    isNavButton (label, "vac_page_" ++ s) = true :=
  pyStartsWith_append _ _

theorem vacRows_no_nav (label : String) (vacs : List Vacancy) :
    (vacs.map (fun v => [(v.title, "vac_" ++ toString v.id)])).any
      (fun r => r.any (navPred label)) = false := by
  rw [List.any_eq_false]
  intro r hr
  rcases List.mem_map.mp hr with ⟨v, hv, rfl⟩
  simp [navPred, isNavButton, vacButton_not_nav]

theorem vacRows_no_nav_mem (label : String) (vacs : List Vacancy) (n k : Nat) :
    ∀ x ∈ List.take n (List.drop k
        (vacs.map (fun v => [(v.title, "vac_" ++ toString v.id)]))),
      ∀ (a b : String), (a, b) ∈ x → isNavButton (a, b) = true → ¬a = label := by
  intro x hx a b hab hnav
  have hx2 : x ∈ vacs.map (fun v => [(v.title, "vac_" ++ toString v.id)]) :=
    List.mem_of_mem_drop (List.mem_of_mem_take hx)
  rcases List.mem_map.mp hx2 with ⟨v, hv, hveq⟩
  subst hveq
  have hb : b = "vac_" ++ toString v.id :=
    congrArg Prod.snd (List.mem_singleton.mp hab)
  rw [hb] at hnav
  simp [isNavButton, vacButton_not_nav] at hnav

/-! ## Claim theorems -/

/-- Claim C5: for every page index p ≥ 0 and every catalog (page size fixed
at 5), the rendered catalog page offers a "previous" navigation control iff
p > 0 and a "next" navigation control iff (p+1)*5 < total. -/
theorem C5_pagination (vacancies : List Vacancy) (page : Int) (_hp : 0 ≤ page) :
    hasPrevControl (build_vacancy_list vacancies page).2 = decide (page > 0) ∧
    hasNextControl (build_vacancy_list vacancies page).2 =
      decide ((page + 1) * 5 < (vacancies.length : Int)) := by
  have hlbl1 : (("Назад" : String) == "Далее") = false := by decide
  have hlbl2 : (("Далее" : String) == "Назад") = false := by decide
  by_cases hprev : page > 0 <;>
    by_cases hnext : (page + 1) * 5 < (vacancies.length : Int) <;>
      simp [build_vacancy_list, hasPrevControl, hasNextControl, hasNavControl,
        hprev, hnext, List.any_append, vacRows_no_nav, navPred,
        main_button_not_nav, nav_button_isNav, hlbl1, hlbl2] <;>
      first
        | exact vacRows_no_nav_mem _ _ _ _
        | exact ⟨vacRows_no_nav_mem _ _ _ _, vacRows_no_nav_mem _ _ _ _⟩

/-- Witness for C5 at a concrete catalog of six vacancies, page 0: no
"previous" control, a "next" control. -/
theorem C5_pagination_witness :
    hasPrevControl (build_vacancy_list
      [⟨1, "A", "d", "c"⟩, ⟨2, "B", "d", "c"⟩, ⟨3, "C", "d", "c"⟩,
       ⟨4, "D", "d", "c"⟩, ⟨5, "E", "d", "c"⟩, ⟨6, "F", "d", "c"⟩] 0).2 =
      decide ((0 : Int) > 0) ∧
    hasNextControl (build_vacancy_list
      [⟨1, "A", "d", "c"⟩, ⟨2, "B", "d", "c"⟩, ⟨3, "C", "d", "c"⟩,
       ⟨4, "D", "d", "c"⟩, ⟨5, "E", "d", "c"⟩, ⟨6, "F", "d", "c"⟩] 0).2 =
      decide (((0 : Int) + 1) * 5 <
        (([⟨1, "A", "d", "c"⟩, ⟨2, "B", "d", "c"⟩, ⟨3, "C", "d", "c"⟩,
           ⟨4, "D", "d", "c"⟩, ⟨5, "E", "d", "c"⟩,
           ⟨6, "F", "d", "c"⟩] : List Vacancy).length : Int)) :=
  C5_pagination _ 0 (by decide)

/-- Claim C6: every token of the form vac_page_<n> routes to the
catalog-page handler, never to the detail handler, although both families
share the vac_ prefix; every other vac_-prefixed token routes to the
detail handler. -/
theorem C6_token_precedence (s t : String)
    (h1 : pyStartsWith t "vac_" = true)
    (h2 : pyStartsWith t "vac_page_" = false) :
    callbackRoute ("vac_page_" ++ s) = some .vacPage ∧
    callbackRoute t = some .vacDetail := by
  constructor
  · have hpp : pyStartsWith ("vac_page_" ++ s) "vac_page_" = true :=
      pyStartsWith_append _ _
    have hc1 : (("vac_page_" ++ s) == "evt_career") = false :=
      beq_eq_false_of_startsWith hpp (by decide)
    have hc2 : (("vac_page_" ++ s) == "evt_practice") = false :=
      beq_eq_false_of_startsWith hpp (by decide)
    have hc3 : (("vac_page_" ++ s) == "all_vacancies") = false :=
      beq_eq_false_of_startsWith hpp (by decide)
    simp [callbackRoute, hc1, hc2, hc3, hpp]
  · have hc1 : (t == "evt_career") = false :=
      beq_eq_false_of_startsWith h1 (by decide)
    have hc2 : (t == "evt_practice") = false :=
      beq_eq_false_of_startsWith h1 (by decide)
    have hc3 : (t == "all_vacancies") = false :=
      beq_eq_false_of_startsWith h1 (by decide)
    simp [callbackRoute, hc1, hc2, hc3, h1, h2]

/-- Witness for C6: `vac_page_3` routes to the page handler and `vac_7`
routes to the detail handler. -/
theorem C6_token_precedence_witness :
    callbackRoute ("vac_page_" ++ "3") = some .vacPage ∧
    callbackRoute "vac_7" = some .vacDetail :=
  C6_token_precedence "3" "vac_7" (by decide) (by decide)

/-- Counterexample to claim C1 as stated: with every channel configured and
the admin-chat send failing, the exception escapes the handler
(`bot.send_message` is not wrapped in try/except), the SMS and email
channels are never attempted, and the applicant confirmation screen is
never rendered. -/
theorem C1_cex :
    (respond_handler ⟨1, some "sid", some "tok", some "host", some "user",
        some "pass", "+100", "admin@example.com"⟩ ⟨true, false, false⟩
        ⟨[], [], []⟩ 7 "applicant" "Name" "respond_evt_career").err =
      some .sendError ∧
    (respond_handler ⟨1, some "sid", some "tok", some "host", some "user",
        some "pass", "+100", "admin@example.com"⟩ ⟨true, false, false⟩
        ⟨[], [], []⟩ 7 "applicant" "Name" "respond_evt_career").effects.all
      (fun e => !isSmsAttempt e && !isEmailAttempt e && !isEditText e) = true := by
  decide

/-- Claim C1 amended: for every response submission that reaches the
notification fan-out — a well-formed token, event mode or vacancy mode,
whose title resolution succeeds, from a caller who is not blacklisted — a
failure in the SMS channel or in the email channel (in any combination)
does not prevent the other channels from being attempted, does not
propagate to the caller, and does not change the applicant confirmation
screen; only a failure of the admin chat send breaks this isolation. -/
theorem C1_fanout_amended (cfg : Config) (env : SinkEnv) (db : DB)
    (uid : Int) (uname fname data pre mode key title : String)
    (rest : List String)
    (hdata : pySplit data '_' = pre :: mode :: key :: rest)
    (htitle : resolveTitle db mode key = .ok title)
    (hbl : db.blacklist.contains uid = false)
    (hchat : env.chatFails = false) :
    (respond_handler cfg env db uid uname fname data).err = none ∧
    (respond_handler cfg env db uid uname fname data).db = db ∧
    Effect.chatAttempt cfg.adminId (respondNotif uname title fname) ∈
      (respond_handler cfg env db uid uname fname data).effects ∧
    ((truthy cfg.twilioSid && truthy cfg.twilioToken) = true →
      Effect.smsAttempt cfg.adminPhone (respondNotif uname title fname) ∈
        (respond_handler cfg env db uid uname fname data).effects) ∧
    ((truthy cfg.smtpHost && truthy cfg.smtpUser && truthy cfg.smtpPass) = true →
      Effect.emailAttempt cfg.adminEmail "Новый отклик" (respondNotif uname title fname) ∈
        (respond_handler cfg env db uid uname fname data).effects) ∧
    (respond_handler cfg env db uid uname fname data).effects.getLast? =
      some (.editText "Спасибо! Ваш отклик отправлен." [[("Главное меню", "main")]]) := by
  have hmem : uid ∉ db.blacklist := by simpa using hbl
  have hr : respond_handler cfg env db uid uname fname data =
      ⟨db, [Effect.ack] ++ [Effect.chatAttempt cfg.adminId (respondNotif uname title fname)] ++
        send_sms cfg env.smsFails cfg.adminPhone (respondNotif uname title fname) ++
        send_email cfg env.emailFails cfg.adminEmail "Новый отклик"
          (respondNotif uname title fname) ++
        [Effect.editText "Спасибо! Ваш отклик отправлен." [[("Главное меню", "main")]]],
        none⟩ := by
    simp [respond_handler, hdata, hmem, htitle, hchat]
  rw [hr]
  refine ⟨rfl, rfl, ?_, ?_, ?_, ?_⟩
  · simp
  · intro hsms
    cases henv : env.smsFails <;> simp [send_sms, hsms, henv]
  · intro hmail
    cases henv : env.emailFails <;> simp [send_email, hmail, henv]
  · exact List.getLast?_concat _

/-- Witness for C1 amended, exercising both submission modes with SMS and
email failing and chat succeeding: a vacancy-mode token (`respond_vac_1`
resolving to the stored vacancy's title) and an event-mode token
(`respond_evt_career`) both return normally, attempt all three channels,
and still render the confirmation screen as the final effect. -/
theorem C1_fanout_amended_witness :
    ((respond_handler ⟨1, some "sid", some "tok", some "host", some "user",
        some "pass", "+100", "admin@example.com"⟩ ⟨false, true, true⟩
        ⟨[⟨1, "Backend", "d", "c"⟩], [], []⟩ 7 "u" "n" "respond_vac_1").err = none ∧
      Effect.smsAttempt "+100" (respondNotif "u" "Backend" "n") ∈
        (respond_handler ⟨1, some "sid", some "tok", some "host", some "user",
          some "pass", "+100", "admin@example.com"⟩ ⟨false, true, true⟩
          ⟨[⟨1, "Backend", "d", "c"⟩], [], []⟩ 7 "u" "n" "respond_vac_1").effects ∧
      Effect.emailAttempt "admin@example.com" "Новый отклик" (respondNotif "u" "Backend" "n") ∈
        (respond_handler ⟨1, some "sid", some "tok", some "host", some "user",
          some "pass", "+100", "admin@example.com"⟩ ⟨false, true, true⟩
          ⟨[⟨1, "Backend", "d", "c"⟩], [], []⟩ 7 "u" "n" "respond_vac_1").effects ∧
      (respond_handler ⟨1, some "sid", some "tok", some "host", some "user",
          some "pass", "+100", "admin@example.com"⟩ ⟨false, true, true⟩
          ⟨[⟨1, "Backend", "d", "c"⟩], [], []⟩ 7 "u" "n" "respond_vac_1").effects.getLast? =
        some (.editText "Спасибо! Ваш отклик отправлен." [[("Главное меню", "main")]])) ∧
    ((respond_handler ⟨1, some "sid", some "tok", some "host", some "user",
        some "pass", "+100", "admin@example.com"⟩ ⟨false, true, true⟩
        ⟨[], [], []⟩ 7 "u" "n" "respond_evt_career").err = none ∧
      (respond_handler ⟨1, some "sid", some "tok", some "host", some "user",
          some "pass", "+100", "admin@example.com"⟩ ⟨false, true, true⟩
          ⟨[], [], []⟩ 7 "u" "n" "respond_evt_career").effects.getLast? =
        some (.editText "Спасибо! Ваш отклик отправлен." [[("Главное меню", "main")]])) := by
  have hvac := C1_fanout_amended
    ⟨1, some "sid", some "tok", some "host", some "user",
      some "pass", "+100", "admin@example.com"⟩ ⟨false, true, true⟩
    ⟨[⟨1, "Backend", "d", "c"⟩], [], []⟩ 7 "u" "n" "respond_vac_1"
    "respond" "vac" "1" "Backend" [] (by decide) rfl (by decide) rfl
  have hevt := C1_fanout_amended
    ⟨1, some "sid", some "tok", some "host", some "user",
      some "pass", "+100", "admin@example.com"⟩ ⟨false, true, true⟩
    ⟨[], [], []⟩ 7 "u" "n" "respond_evt_career"
    "respond" "evt" "career" "career" [] (by decide) rfl (by decide) rfl
  exact ⟨⟨hvac.1, hvac.2.2.2.1 (by decide), hvac.2.2.2.2.1 (by decide),
    hvac.2.2.2.2.2⟩, hevt.1, hevt.2.2.2.2.2⟩

/-- Counterexample to claim C2 as stated: the token `vac_page_x` (non-
numeric page) makes the page handler raise `ValueError` to the caller and
render nothing — not a usage/error screen. -/
theorem C2_cex :
    (vac_page_handler ⟨[], [], []⟩ "vac_page_x").err = some .valueError ∧
    (vac_page_handler ⟨[], [], []⟩ "vac_page_x").effects = [] := by
  decide

/-- Claim C2 amended: a malformed callback token (wrong arity, non-numeric
page or id) performs no store write and renders no screen, but — unlike
the malformed admin commands, which reply with a usage line — the
underlying ValueError/IndexError escapes the callback handler to the
dispatcher. -/
theorem C2_malformed_amended (db : DB) (data pageTok : String) (uid : Int)
    (uname fname : String) (cfg : Config) (env : SinkEnv) :
    ((pySplit data '_').getLast? = some pageTok → pyInt? pageTok = none →
      vac_page_handler db data = ⟨db, [], some .valueError⟩) ∧
    (∀ pre idTok rest, pySplit data '_' = pre :: idTok :: rest →
      pyInt? idTok = none → vac_detail db data = ⟨db, [], some .valueError⟩) ∧
    ((pySplit data '_').length < 2 →
      vac_detail db data = ⟨db, [], some .indexError⟩) ∧
    ((pySplit data '_').length < 3 →
      respond_handler cfg env db uid uname fname data =
        ⟨db, [.ack], some .indexError⟩) ∧
    (∀ pre mode key rest, pySplit data '_' = pre :: mode :: key :: rest →
      db.blacklist.contains uid = false → (mode == "evt") = false →
      pyInt? key = none →
      respond_handler cfg env db uid uname fname data =
        ⟨db, [.ack], some .valueError⟩) := by
  refine ⟨?_, ?_, ?_, ?_, ?_⟩
  · intro hlast hint
    simp [vac_page_handler, hlast, hint]
  · intro pre idTok rest hsplit hint
    simp [vac_detail, hsplit, hint]
  · intro hlen
    rcases hsplit : pySplit data '_' with _ | ⟨a, _ | ⟨b, rest⟩⟩
    · simp [vac_detail, hsplit]
    · simp [vac_detail, hsplit]
    · rw [hsplit] at hlen
      simp at hlen
      omega
  · intro hlen
    rcases hsplit : pySplit data '_' with _ | ⟨a, _ | ⟨b, _ | ⟨c, rest⟩⟩⟩
    · simp [respond_handler, hsplit]
    · simp [respond_handler, hsplit]
    · simp [respond_handler, hsplit]
    · rw [hsplit] at hlen
      simp at hlen
      omega
  · intro pre mode key rest hsplit hbl hmode hint
    have hmem : uid ∉ db.blacklist := by simpa using hbl
    simp [respond_handler, resolveTitle, hsplit, hmem, hmode, hint]

/-- Witness for C2 amended: concrete malformed tokens for each handler. -/
theorem C2_malformed_amended_witness :
    vac_page_handler ⟨[], [], []⟩ "vac_page_y" = ⟨⟨[], [], []⟩, [], some .valueError⟩ ∧
    vac_detail ⟨[], [], []⟩ "vac_z" = ⟨⟨[], [], []⟩, [], some .valueError⟩ ∧
    vac_detail ⟨[], [], []⟩ "vac" = ⟨⟨[], [], []⟩, [], some .indexError⟩ ∧
    respond_handler ⟨0, none, none, none, none, none, "", ""⟩ ⟨false, false, false⟩
      ⟨[], [], []⟩ 7 "u" "n" "respond" = ⟨⟨[], [], []⟩, [.ack], some .indexError⟩ ∧
    respond_handler ⟨0, none, none, none, none, none, "", ""⟩ ⟨false, false, false⟩
      ⟨[], [], []⟩ 7 "u" "n" "respond_vac_q" =
        ⟨⟨[], [], []⟩, [.ack], some .valueError⟩ := by
  refine ⟨?_, ?_, ?_, ?_, ?_⟩
  · exact (C2_malformed_amended ⟨[], [], []⟩ "vac_page_y" "y" 7 "u" "n"
      ⟨0, none, none, none, none, none, "", ""⟩ ⟨false, false, false⟩).1
      (by decide) (by decide)
  · exact (C2_malformed_amended ⟨[], [], []⟩ "vac_z" "" 7 "u" "n"
      ⟨0, none, none, none, none, none, "", ""⟩ ⟨false, false, false⟩).2.1
      "vac" "z" [] (by decide) (by decide)
  · exact (C2_malformed_amended ⟨[], [], []⟩ "vac" "" 7 "u" "n"
      ⟨0, none, none, none, none, none, "", ""⟩ ⟨false, false, false⟩).2.2.1
      (by decide)
  · exact (C2_malformed_amended ⟨[], [], []⟩ "respond" "" 7 "u" "n"
      ⟨0, none, none, none, none, none, "", ""⟩ ⟨false, false, false⟩).2.2.2.1
      (by decide)
  · exact (C2_malformed_amended ⟨[], [], []⟩ "respond_vac_q" "" 7 "u" "n"
      ⟨0, none, none, none, none, none, "", ""⟩ ⟨false, false, false⟩).2.2.2.2
      "respond" "vac" "q" [] (by decide) (by decide) (by decide) (by decide)

/-- Claim C3 (the code contradicts it): detail lookup of `vac_1` on an
empty catalog dereferences `None` — `AttributeError` escapes the handler
and no not-found screen is rendered. -/
theorem C3_detail_not_found :
    vac_detail ⟨[], [], []⟩ "vac_1" = ⟨⟨[], [], []⟩, [], some .attributeError⟩ := by
  decide

/-- Claim C7: a blacklisted caller gets no output from the start command,
and a response-submission callback from a blacklisted caller triggers no
notification fan-out: the effect trace is just the callback
acknowledgement, whatever the token. -/
theorem C7_blacklist_suppression (cfg : Config) (env : SinkEnv) (db : DB)
    (uid : Int) (uname fname data : String)
    (hbl : db.blacklist.contains uid = true) :
    cmd_start db uid = [] ∧
    (respond_handler cfg env db uid uname fname data).effects = [.ack] := by
  have hmem : uid ∈ db.blacklist := by simpa using hbl
  constructor
  · simp [cmd_start, hmem]
  · rcases hsplit : pySplit data '_' with _ | ⟨a, _ | ⟨b, _ | ⟨c, rest⟩⟩⟩ <;>
      simp [respond_handler, hsplit, hmem]

/-- Witness for C7: user 42 blacklisted. -/
theorem C7_blacklist_suppression_witness :
    cmd_start ⟨[], [], [42]⟩ 42 = [] ∧
    (respond_handler ⟨0, none, none, none, none, none, "", ""⟩
      ⟨false, false, false⟩ ⟨[], [], [42]⟩ 42 "u" "n"
      "respond_evt_career").effects = [.ack] :=
  C7_blacklist_suppression ⟨0, none, none, none, none, none, "", ""⟩
    ⟨false, false, false⟩ ⟨[], [], [42]⟩ 42 "u" "n" "respond_evt_career"
    (by decide)

/-- Claim C10: `respond_handler` acknowledges the callback first (line
180), before the blacklist check, so a blacklisted caller still receives
the acknowledgement; it then returns without editing the screen — a
silent drop with no confirmation render and no error. -/
theorem C10_ack_then_silent_drop (cfg : Config) (env : SinkEnv) (db : DB)
    (uid : Int) (uname fname data a b c : String) (rest : List String)
    (hdata : pySplit data '_' = a :: b :: c :: rest)
    (hbl : db.blacklist.contains uid = true) :
    respond_handler cfg env db uid uname fname data = ⟨db, [.ack], none⟩ := by
  have hmem : uid ∈ db.blacklist := by simpa using hbl
  simp [respond_handler, hdata, hmem]

/-- Witness for C10: blacklisted user 42, well-formed token. -/
theorem C10_ack_then_silent_drop_witness :
    respond_handler ⟨0, none, none, none, none, none, "", ""⟩
      ⟨false, false, false⟩ ⟨[], [], [42]⟩ 42 "u" "n" "respond_vac_1" =
      ⟨⟨[], [], [42]⟩, [.ack], none⟩ :=
  C10_ack_then_silent_drop ⟨0, none, none, none, none, none, "", ""⟩
    ⟨false, false, false⟩ ⟨[], [], [42]⟩ 42 "u" "n" "respond_vac_1"
    "respond" "vac" "1" [] (by decide) (by decide)

/-- Counterexample to claim C4 as stated: a first toggle of the unseen name
`career` commits a row with enabled = true (the row is created disabled
and flipped in the same call), not enabled = false; a subsequent press of
`evt_career` then renders the event screen, not the "temporarily
unavailable" alert. -/
theorem C4_cex :
    (cmd_toggle ⟨[], [], []⟩ "/toggle career").1.toggles = [⟨"career", true⟩] ∧
    evt_handler (cmd_toggle ⟨[], [], []⟩ "/toggle career").1 "evt_career" =
      [.editText "Описание для Центр Карьеры"
        [[("Откликнуться", "respond_evt_career"), ("Главное меню", "main")]]] := by
  decide

/-- Claim C4 amended: a first toggle of an unseen name appends a row that
is committed with enabled = true (created disabled, flipped in the same
call); every call on an existing row flips the stored boolean; and a
double flip restores the effective enabled value, where "effective" is the
gate actually consulted by the event handler (a missing row counts as
disabled). -/
theorem C4_toggle_amended (db : DB) (text w name : String)
    (htext : pySplitOnce text ' ' = [w, name]) :
    (db.toggles.find? (fun t => t.name == name) = none →
      (cmd_toggle db text).1.toggles = db.toggles ++ [⟨name, true⟩]) ∧
    (∀ tog, db.toggles.find? (fun t => t.name == name) = some tog →
      effectiveEnabled (cmd_toggle db text).1 name = !tog.enabled) ∧
    effectiveEnabled (cmd_toggle (cmd_toggle db text).1 text).1 name =
      effectiveEnabled db name := by
  refine ⟨?_, ?_, ?_⟩
  · intro hfind
    simp [cmd_toggle, htext, hfind]
  · intro tog hfind
    have hptog := List.find?_some hfind
    have hupd := find_map_update (fun t : Toggle => t.name == name)
      (⟨tog.name, !tog.enabled⟩ : Toggle) hfind (by simpa using hptog)
    have h1 : (cmd_toggle db text).1 =
        { db with toggles := (db.toggles.map
            (fun t => if t.name == name then (⟨tog.name, !tog.enabled⟩ : Toggle) else t)) } := by
      simp only [cmd_toggle, htext, hfind]
    rw [h1]
    simp only [effectiveEnabled, hupd]
  · rcases hfind : db.toggles.find? (fun t => t.name == name) with _ | tog
    · have h1 : (cmd_toggle db text).1 =
          { db with toggles := (db.toggles ++ [(⟨name, true⟩ : Toggle)]) } := by
        simp [cmd_toggle, htext, hfind]
      have hfind2 : (db.toggles ++ [(⟨name, true⟩ : Toggle)]).find?
          (fun t => t.name == name) = some ⟨name, true⟩ := by
        rw [find_none_append _ _ hfind]
        exact List.find?_cons_of_pos _ (by simp)
      have hmap : (db.toggles ++ [(⟨name, true⟩ : Toggle)]).map
          (fun t => if t.name == name then (⟨name, false⟩ : Toggle) else t) =
          db.toggles ++ [(⟨name, false⟩ : Toggle)] := by
        rw [List.map_append, map_update_of_find_none _ _ hfind]
        simp
      have hfind3 : (db.toggles ++ [(⟨name, false⟩ : Toggle)]).find?
          (fun t => t.name == name) = some ⟨name, false⟩ := by
        rw [find_none_append _ _ hfind]
        exact List.find?_cons_of_pos _ (by simp)
      have h2 : (cmd_toggle (cmd_toggle db text).1 text).1 =
          { db with toggles := ((db.toggles ++ [(⟨name, true⟩ : Toggle)]).map
              (fun t => if t.name == name then (⟨name, false⟩ : Toggle) else t)) } := by
        rw [h1]
        simp only [cmd_toggle, htext, hfind2, Bool.not_true]
      rw [h2, effectiveEnabled, effectiveEnabled, hmap, hfind3, hfind]
    · have hptog := List.find?_some hfind
      have h1 : (cmd_toggle db text).1 =
          { db with toggles := (db.toggles.map
              (fun t => if t.name == name then (⟨tog.name, !tog.enabled⟩ : Toggle) else t)) } := by
        simp only [cmd_toggle, htext, hfind]
      have hfind2 := find_map_update (fun t : Toggle => t.name == name)
        (⟨tog.name, !tog.enabled⟩ : Toggle) hfind (by simpa using hptog)
      have h2 : (cmd_toggle (cmd_toggle db text).1 text).1 =
          { db with toggles := ((db.toggles.map
              (fun t => if t.name == name then (⟨tog.name, !tog.enabled⟩ : Toggle) else t)).map
              (fun t => if t.name == name then (⟨tog.name, !(!tog.enabled)⟩ : Toggle) else t)) } := by
        rw [h1]
        simp only [cmd_toggle, htext, hfind2]
      have hfind3 := find_map_update (fun t : Toggle => t.name == name)
        (⟨tog.name, tog.enabled⟩ : Toggle) hfind2 (by simpa using hptog)
      rw [h2]
      simp only [effectiveEnabled, Bool.not_not, hfind3, hfind]

/-- Witness for C4 amended, on name `practice`: first flip on the empty
store, flip of an existing enabled row, and double flip from unseen. -/
theorem C4_toggle_amended_witness :
    (cmd_toggle ⟨[], [], []⟩ "/toggle practice").1.toggles = [⟨"practice", true⟩] ∧
    effectiveEnabled
      (cmd_toggle ⟨[], [⟨"practice", true⟩], []⟩ "/toggle practice").1 "practice" =
      false ∧
    effectiveEnabled
      (cmd_toggle (cmd_toggle ⟨[], [], []⟩ "/toggle practice").1
        "/toggle practice").1 "practice" =
      effectiveEnabled ⟨[], [], []⟩ "practice" := by
  have h1 := C4_toggle_amended ⟨[], [], []⟩ "/toggle practice" "/toggle" "practice"
    (by decide)
  have h2 := C4_toggle_amended ⟨[], [⟨"practice", true⟩], []⟩ "/toggle practice"
    "/toggle" "practice" (by decide)
  exact ⟨h1.1 (by decide), h2.2.1 ⟨"practice", true⟩ (by decide), h1.2.2⟩

/-- Counterexample to claim C8 as stated: adding user 42 when already
present is not treated as a no-op success — the duplicate-key
IntegrityError is caught by the bare except and the command takes its
error path, replying with the usage line instead of the confirmation. -/
theorem C8_cex :
    cmd_blacklist ⟨[], [], [42]⟩ "/blacklist 42" =
      (⟨[], [], [42]⟩, [.reply "Использование: /blacklist USER_ID"]) := by
  decide

/-- Claim C8 amended: adding an already-present id leaves the store
unchanged — contains stays true and the row count for the id is unchanged
(so still exactly one row) — and no duplicate-key fault propagates, but
the command replies with the usage/error line, not the success
confirmation. -/
theorem C8_blacklist_amended (db : DB) (text w uidStr : String) (uid : Int)
    (htext : pySplitOnce text ' ' = [w, uidStr])
    (hparse : pyInt? uidStr = some uid)
    (hmem : db.blacklist.contains uid = true) :
    (cmd_blacklist db text).1 = db ∧
    (cmd_blacklist db text).1.blacklist.contains uid = true ∧
    (cmd_blacklist db text).1.blacklist.count uid = db.blacklist.count uid ∧
    (cmd_blacklist db text).2 = [.reply "Использование: /blacklist USER_ID"] := by
  have hmem2 : uid ∈ db.blacklist := by simpa using hmem
  have h : cmd_blacklist db text =
      (db, [.reply "Использование: /blacklist USER_ID"]) := by
    simp [cmd_blacklist, htext, hparse, hmem2]
  rw [h]
  exact ⟨rfl, hmem, rfl, rfl⟩

/-- Witness for C8 amended: user 43 already blacklisted. -/
theorem C8_blacklist_amended_witness :
    (cmd_blacklist ⟨[], [], [43]⟩ "/blacklist 43").1 = ⟨[], [], [43]⟩ ∧
    (cmd_blacklist ⟨[], [], [43]⟩ "/blacklist 43").1.blacklist.contains 43 = true ∧
    (cmd_blacklist ⟨[], [], [43]⟩ "/blacklist 43").1.blacklist.count 43 =
      (([43] : List Int).count 43) ∧
    (cmd_blacklist ⟨[], [], [43]⟩ "/blacklist 43").2 =
      [.reply "Использование: /blacklist USER_ID"] :=
  C8_blacklist_amended ⟨[], [], [43]⟩ "/blacklist 43" "/blacklist" "43" 43
    (by decide) (by decide) (by decide)

/-- Counterexample to claim C9 as stated: the accepted input `/addvac ||`
creates a Vacancy row whose title, description and city are all empty, and
the command still replies with the success confirmation. -/
theorem C9_cex :
    cmd_addvac ⟨[], [], []⟩ "/addvac ||" =
      (⟨[⟨1, "", "", ""⟩], [], []⟩, [.reply "Вакансия добавлена."]) := by
  decide

/-- Claim C9 amended: every Vacancy row created via addvac has title,
description and city equal to the whitespace-stripped segments of the
accepted argument; the command checks only the three-field arity, so the
fields may be empty — non-emptiness is not enforced. -/
theorem C9_addvac_amended (db : DB) (text w data title desc city : String)
    (htext : pySplitOnce text ' ' = [w, data])
    (hfields : (pySplit data '|').map pyStrip = [title, desc, city]) :
    cmd_addvac db text =
      ({ db with vacancies := db.vacancies ++ [⟨nextId db, title, desc, city⟩] },
       [.reply "Вакансия добавлена."]) := by
  simp [cmd_addvac, htext, hfields]

/-- Witness for C9 amended: the spec's own end-to-end example input. -/
theorem C9_addvac_amended_witness :
    cmd_addvac ⟨[], [], []⟩ "/addvac Backend Engineer|Build services|Remote" =
      (⟨[⟨1, "Backend Engineer", "Build services", "Remote"⟩], [], []⟩,
       [.reply "Вакансия добавлена."]) := by
  have h := C9_addvac_amended ⟨[], [], []⟩
    "/addvac Backend Engineer|Build services|Remote" "/addvac"
    "Backend Engineer|Build services|Remote" "Backend Engineer"
    "Build services" "Remote" (by decide) (by decide)
  exact h.trans (by decide)

end HRBot

